import Mathlib

/-!
Shallow embedding of the request/response core of the `ekobudy/ldap` Go
client (files `modify.go` and the Compare source file), together with the
parts of the surrounding connection machinery that the spec describes and
that the two files call into.

The wire codec (`github.com/hsoj/asn1-ber` / `github.com/go-asn1-ber/asn1-ber`)
is an external collaborator of the repository: it is embedded here as an
inductive tree of tagged values (`Ber.Packet`) with the constructors the two
source files use (`Encode`, `NewString`, `NewInteger`, `AppendChild`) and a
deterministic byte serializer mirroring the library's `Packet.Bytes`.
-/

namespace Ldap

/-! ## The BER packet tree (external wire codec, as used by the source) -/

/-- The payload a primitive BER packet carries: nothing (`ber.Encode` with a
nil value), an integer (`ber.NewInteger`), or a string (`ber.NewString`). -/
inductive BerValue where
  | null : BerValue
  | int (n : Nat) : BerValue
  | str (s : String) : BerValue
deriving DecidableEq, Repr

/-- A BER packet: class, primitive/constructed flag, tag, carried value,
human-readable description, and the list of appended children, exactly the
fields of the library's `ber.Packet` that the source reads or writes. -/
inductive Packet where
  | mk (pclass ptype tag : Nat) (value : BerValue) (description : String)
      (children : List Packet) : Packet

/-- Children of a packet. -/
def Packet.children : Packet → List Packet
  | .mk _ _ _ _ _ cs => cs

/-- Class of a packet. -/
def Packet.pclass : Packet → Nat
  | .mk c _ _ _ _ _ => c

/-- Primitive/constructed flag of a packet. -/
def Packet.ptype : Packet → Nat
  | .mk _ t _ _ _ _ => t

/-- Tag of a packet. -/
def Packet.tag : Packet → Nat
  | .mk _ _ g _ _ _ => g

/-- Carried value of a packet. -/
def Packet.value : Packet → BerValue
  | .mk _ _ _ v _ _ => v

/-- Description string of a packet. -/
def Packet.description : Packet → String
  | .mk _ _ _ _ d _ => d

namespace Ber

/-- `ber.ClassUniversal`. -/
def ClassUniversal : Nat := 0
/-- `ber.ClassApplication`. -/
def ClassApplication : Nat := 64
/-- `ber.ClassContext`. -/
def ClassContext : Nat := 128
/-- `ber.TypePrimative` (the library's spelling; `TypePrimitive` in the fork
used by the Compare file; both denote the same value). -/
def TypePrimative : Nat := 0
/-- `ber.TypeConstructed`. -/
def TypeConstructed : Nat := 32
/-- `ber.TagInteger`. -/
def TagInteger : Nat := 2
/-- `ber.TagOctetString`. -/
def TagOctetString : Nat := 4
/-- `ber.TagEnumerated`. -/
def TagEnumerated : Nat := 10
/-- `ber.TagSequence`. -/
def TagSequence : Nat := 16
/-- `ber.TagSet`. -/
def TagSet : Nat := 17

/-- `ber.Encode(class, type, tag, nil, description)`: a packet with no
carried value and no children yet. -/
def encode (c t g : Nat) (d : String) : Packet :=
  .mk c t g .null d []

/-- `ber.NewString(class, type, tag, s, description)`. -/
def newString (c t g : Nat) (s : String) (d : String) : Packet :=
  .mk c t g (.str s) d []

/-- `ber.NewInteger(class, type, tag, n, description)`. -/
def newInteger (c t g : Nat) (n : Nat) (d : String) : Packet :=
  .mk c t g (.int n) d []

end Ber

/-- `packet.AppendChild(child)`: appends one child at the end. -/
def Packet.appendChild : Packet → Packet → Packet
  | .mk c t g v d cs, child => .mk c t g v d (cs ++ [child])

/-- Big-endian base-256 digits of a natural number, at least one octet. -/
def natOctets (n : Nat) : List Nat :=
  if h : n < 256 then [n]
  else
    have : n / 256 < n := Nat.div_lt_self (by omega) (by omega)
    natOctets (n / 256) ++ [n % 256]

/-- BER definite-length octets: short form below 128, long form above. -/
def lengthOctets (n : Nat) : List Nat :=
  if n < 128 then [n]
  else
    let ds := natOctets n
    (128 + ds.length) :: ds

/-- Content octets of a carried value: UTF-8-compatible code points of a
string (the source only ever encodes ASCII line data), base-256 octets of an
integer, nothing for a nil value. -/
def BerValue.octets : BerValue → List Nat
  | .null => []
  | .int n => natOctets n
  | .str s => s.data.map Char.toNat

mutual

/-- `packet.Bytes()`: identifier octet, length octets, then the value's
content octets followed by each child's bytes in order, mirroring the
library's deterministic serializer. -/
def Packet.bytes : Packet → List Nat
  | .mk c t g v _ cs =>
    let content := v.octets ++ Packet.bytesList cs
    (c + t + g) :: (lengthOctets content.length ++ content)

/-- Concatenated serializations of a list of packets. -/
def Packet.bytesList : List Packet → List Nat
  | [] => []
  | p :: ps => p.bytes ++ Packet.bytesList ps

end

/-! ## Data model of `modify.go` -/

/-- `ModAdd` from `modify.go`. -/
def ModAdd : Nat := 0
/-- `ModDelete` from `modify.go`. -/
def ModDelete : Nat := 1
/-- `ModReplace` from `modify.go`. -/
def ModReplace : Nat := 2

/-- `ModMap` from `modify.go`: a Go `map[uint8]string`; a lookup of a key
that is absent yields the zero value `""`, which is how the function below
renders an out-of-range operation. -/
def ModMap (op : Nat) : String :=
  if op = ModAdd then "add"
  else if op = ModDelete then "delete"
  else if op = ModReplace then "replace"
  else ""

/-- `EntryAttribute` (declared in the search code of the repository, reused
by `modify.go`): an attribute name with its ordered values. -/
structure EntryAttribute where
  Name : String
  Values : List String
deriving DecidableEq, Repr

/-- `Mod` from `modify.go`. The Go field is a `uint8`; its value set 0..255
is embedded into `Nat`. -/
structure Mod where
  ModOperation : Nat
  Modification : EntryAttribute
deriving DecidableEq, Repr

/-- `ModifyRequest` from `modify.go`. -/
structure ModifyRequest where
  DN : String
  Mods : List Mod
deriving DecidableEq, Repr

/-- `ApplicationModifyRequest` (= 6, the application tag fixed by the
protocol, per the spec's wire-format section). -/
def ApplicationModifyRequest : Nat := 6

/-- `ApplicationCompareRequest` (= 14, fixed by the protocol). -/
def ApplicationCompareRequest : Nat := 14

/-- Modelled from the spec: `ApplicationMap`, the tag-to-description map
declared outside the two source files; it only supplies the human-readable
description string of an envelope and never reaches the serialized bytes. -/
def ApplicationMap (tag : Nat) : String :=
  if tag = ApplicationModifyRequest then "Modify Request"
  else if tag = ApplicationCompareRequest then "Compare Request"
  else "Unknown"

/-- Body of the `for _, mod := range req.Mods` loop of
`encodeModifyRequest` (`modify.go` lines 133-146): one change record. -/
def encodeMod (mod : Mod) : Packet :=
  let modification := Ber.encode Ber.ClassUniversal Ber.TypeConstructed Ber.TagSequence "Modification"
  let op := Ber.newInteger Ber.ClassUniversal Ber.TypePrimative Ber.TagEnumerated mod.ModOperation
    ("Modify Op (" ++ ModMap mod.ModOperation ++ ")")
  let modification := modification.appendChild op
  let partAttr := Ber.encode Ber.ClassUniversal Ber.TypeConstructed Ber.TagSequence "PartialAttribute"
  let partAttr := partAttr.appendChild
    (Ber.newString Ber.ClassUniversal Ber.TypePrimative Ber.TagOctetString mod.Modification.Name "AttributeDescription")
  let valuesSet := mod.Modification.Values.foldl
    (fun vs val => vs.appendChild
      (Ber.newString Ber.ClassUniversal Ber.TypePrimative Ber.TagOctetString val "AttributeValue"))
    (Ber.encode Ber.ClassUniversal Ber.TypeConstructed Ber.TagSet "Attribute Value Set")
  let partAttr := partAttr.appendChild valuesSet
  modification.appendChild partAttr

/-- `encodeModifyRequest` from `modify.go`: the Modify envelope with the DN
octet string and the sequence of change records in input order. -/
def encodeModifyRequest (req : ModifyRequest) : Packet :=
  let modpacket := Ber.encode Ber.ClassApplication Ber.TypeConstructed ApplicationModifyRequest
    (ApplicationMap ApplicationModifyRequest)
  let modpacket := modpacket.appendChild
    (Ber.newString Ber.ClassUniversal Ber.TypePrimative Ber.TagOctetString req.DN "LDAP DN")
  let seqOfChanges := req.Mods.foldl (fun seq mod => seq.appendChild (encodeMod mod))
    (Ber.encode Ber.ClassUniversal Ber.TypeConstructed Ber.TagSequence "Changes")
  modpacket.appendChild seqOfChanges

/-- `(*ModifyRequest).Bytes()` from `modify.go`. -/
def ModifyRequest.Bytes (req : ModifyRequest) : List Nat :=
  (encodeModifyRequest req).bytes

/-- `NewModifyRequest` from `modify.go`. -/
def NewModifyRequest (dn : String) : ModifyRequest :=
  { DN := dn, Mods := [] }

/-- `(*Mod).DumpMod` from `modify.go`: the LDIF fragment of one Mod. -/
def Mod.DumpMod (mod : Mod) : String :=
  let dump := "changetype: modify\n"
  let dump := dump ++ ModMap mod.ModOperation ++ ": " ++ mod.Modification.Name ++ "\n"
  let dump := mod.Modification.Values.foldl
    (fun d val => d ++ mod.Modification.Name ++ ": " ++ val ++ "\n") dump
  dump ++ "-\n"

/-- `(*ModifyRequest).DumpModRequest` from `modify.go`: the `dn:` line
followed by each Mod's dump in order. -/
def ModifyRequest.DumpModRequest (req : ModifyRequest) : String :=
  req.Mods.foldl (fun d mod => d ++ mod.DumpMod) ("dn: " ++ req.DN ++ "\n")

/-- `NewMod` from `modify.go`. -/
def NewMod (modType : Nat) (attr : String) (values : List String) : Mod :=
  { ModOperation := modType, Modification := { Name := attr, Values := values } }

/-- `(*ModifyRequest).AddMod` from `modify.go`. -/
def ModifyRequest.AddMod (req : ModifyRequest) (mod : Mod) : ModifyRequest :=
  { req with Mods := req.Mods ++ [mod] }

/-- `(*ModifyRequest).AddMods` from `modify.go`. -/
def ModifyRequest.AddMods (req : ModifyRequest) (mods : List Mod) : ModifyRequest :=
  { req with Mods := req.Mods ++ mods }

/-! ## Errors and the connection facades

The `Error` type, its constructors and the error-kind result codes are
declared in the repository outside the two files under scrutiny; they are
modelled from the spec's error-handling section. -/

/-- Modelled from the spec: the repository's structured `Error` carrying a
result code and a message (`NewError(code, errors.New(text))` /
`newError(code, text)`). -/
structure Error where
  ResultCode : Nat
  Message : String
deriving DecidableEq, Repr

/-- Modelled from the spec: `ErrorNetwork`, the result-code constant for the
network error kind (transport write failed, connection closed while
awaiting, absent reply). -/
def ErrorNetwork : Nat := 200

/-- Modelled from the spec: `ErrorDebugging`, the result-code constant
returned when annotating a reply for debug printing fails. -/
def ErrorDebugging : Nat := 203

/-- Modelled from the spec: `ErrorClosing`, the result-code constant for the
closing error kind (the allocator or Connection has begun shutdown; no
request is sent). -/
def ErrorClosing : Nat := 204

/-- `NewError(code, errors.New(text))` as used by `modify.go`. -/
def NewError (code : Nat) (text : String) : Error :=
  { ResultCode := code, Message := text }

/-- `newError(code, text)` as used by the Compare source file. -/
def newError (code : Nat) (text : String) : Error :=
  { ResultCode := code, Message := text }

/-- A Go `error` interface value as seen by a type assertion `err.(*Error)`:
either the repository's structured `*Error`, or an error of any other
dynamic type. -/
inductive GoError where
  | ldap (e : Error) : GoError
  | other (s : String) : GoError
deriving DecidableEq, Repr

/-- Modelled from the spec: the behavior of the legacy `Conn` that
`modify.go`'s `Modify` interacts with. `nextMessageID()` on this type
returns a bare identifier — it has no `ok` result and cannot signal that
the connection is closing; when the connection is shutting down,
`sendMessage` either fails or hands back a nil channel, and a nil packet is
read from the channel when the connection closes while awaiting. Each field
is the oracle for one of those interactions. -/
structure Conn where
  messageID : Nat
  Debug : Bool
  sendResult : Option Error
  channelIsNil : Bool
  reply : Option (Nat × String)
  addDescErr : Option String
deriving DecidableEq, Repr

/-- Modelled from the spec: `getLDAPResultCode(packet)` extracts the result
code and diagnostic text from a reply envelope; the `Conn` oracle hands the
reply over already as that pair. -/
def getLDAPResultCode (reply : Nat × String) : Nat × String := reply

/-- Result interpretation tail of `(*Conn).Modify` (`modify.go` lines
111-121). -/
def Conn.interpretModifyReply (reply : Nat × String) : Option Error :=
  let rc := getLDAPResultCode reply
  if rc.1 ≠ 0 then some (NewError rc.1 rc.2) else none

/-- `(*Conn).Modify` from `modify.go`: allocate the id (no closing signal is
possible), build the envelope, send, await the reply, then interpret the
result code: `0` is success, any other code becomes
`NewError(code, errors.New(description))`. Debug-mode printing is modelled
only through the fallible `addLDAPDescriptions` step. -/
def Conn.Modify (l : Conn) (modReq : ModifyRequest) : Option Error :=
  let messageID := l.messageID
  let packet := Ber.encode Ber.ClassUniversal Ber.TypeConstructed Ber.TagSequence "LDAP Request"
  let packet := packet.appendChild
    (Ber.newInteger Ber.ClassUniversal Ber.TypePrimative Ber.TagInteger messageID "MessageID")
  let _packet := packet.appendChild (encodeModifyRequest modReq)
  match l.sendResult with
  | some err => some err
  | none =>
    if l.channelIsNil then some (NewError ErrorNetwork "Could not send message")
    else
      match l.reply with
      | none => some (NewError ErrorNetwork "Could not retrieve message")
      | some reply =>
        if l.Debug then
          match l.addDescErr with
          | some e => some (NewError ErrorDebugging e)
          | none => Conn.interpretModifyReply reply
        else Conn.interpretModifyReply reply

/-! ## The Compare source file -/

/-- `Control` from the Compare fork of the repository: only its presence in
`CompareRequest` matters to the claims, so it is embedded as an opaque-free
placeholder record. -/
structure Control where
  payload : String
deriving DecidableEq, Repr

/-- `CompareRequest` from the Compare source file. -/
structure CompareRequest where
  DN : String
  Name : String
  Value : String
  Controls : List Control
deriving DecidableEq, Repr

/-- Modelled from the spec: `ResultCompareTrue` (= 6), the protocol result
code meaning "compare true". -/
def ResultCompareTrue : Nat := 6

/-- Modelled from the spec: `ResultCompareFalse` (= 5), the protocol result
code meaning "compare false". -/
def ResultCompareFalse : Nat := 5

/-- Modelled from the spec: `encodeItem`, declared in the repository's
filter-encoding code, not under src/. Called by `encodeCompareRequest` with
the three-element item `[name, "=", value]`, it produces the
attribute-value-assertion: a sequence of two octet strings, the attribute
name and the asserted value; any other shape is a local encoding error. -/
def encodeItem : List String → Except String Packet
  | [name, "=", value] =>
    .ok (((Ber.encode Ber.ClassUniversal Ber.TypeConstructed Ber.TagSequence
        "Attribute Value Assertion").appendChild
      (Ber.newString Ber.ClassUniversal Ber.TypePrimative Ber.TagOctetString name
        "AttributeDesc")).appendChild
      (Ber.newString Ber.ClassUniversal Ber.TypePrimative Ber.TagOctetString value
        "AssertionValue"))
  | _ => .error "Filter parse error"

/-- `encodeCompareRequest` from the Compare source file: the Compare
envelope with the DN octet string followed by the attribute-value-assertion
built by `encodeItem [req.Name, "=", req.Value]`. -/
def encodeCompareRequest (req : CompareRequest) : Except String Packet :=
  let p := Ber.encode Ber.ClassApplication Ber.TypeConstructed ApplicationCompareRequest
    (ApplicationMap ApplicationCompareRequest)
  let p := p.appendChild
    (Ber.newString Ber.ClassUniversal Ber.TypePrimative Ber.TagOctetString req.DN "LDAP DN")
  match encodeItem [req.Name, "=", req.Value] with
  | .error e => .error e
  | .ok ava => .ok (p.appendChild ava)

/-- `NewCompareRequest` from the Compare source file. -/
def NewCompareRequest (dn name value : String) : CompareRequest :=
  { DN := dn, Name := name, Value := value, Controls := [] }

/-- Modelled from the spec: the behavior of the `Connection` that the
Compare source file's `Compare` interacts with. `nextMessageID()` on this
type returns `(id, ok)` and yields `ok = false` once the Connection has
begun closing; `reply` is the correlated reply delivered to
`sendReqRespPacket`, given as its extracted (result code, diagnostic) pair,
or `none` when no reply arrives before the Connection closes. -/
structure Connection where
  nextMessageID : Option Nat
  reply : Option (Nat × String)
deriving DecidableEq, Repr

/-- Modelled from the spec: `(*Connection).sendReqRespPacket` submits the
packet, awaits the correlated reply and interprets it, with the same shape
as Modify: a missing reply is a network `*Error`, a nonzero result code
(including 5 and 6) becomes a structured `*Error` carrying that code and
its diagnostic text, and code 0 yields a nil error. -/
def Connection.sendReqRespPacket (l : Connection) : Option GoError :=
  match l.reply with
  | none => some (.ldap (newError ErrorNetwork "Could not retrieve message"))
  | some (code, desc) =>
    if code ≠ 0 then some (.ldap (newError code desc)) else none

/-- Modelled from the spec: `requestBuildPacket(messageID, op, controls)`
wraps the encoded operation, together with its correlation identifier, in
the outer envelope, appending the request controls. In this embedding it
cannot fail, matching the spec's "fails only if the Wire Codec rejects
malformed input". -/
def requestBuildPacket (messageID : Nat) (op : Packet) (controls : List Control) : Packet :=
  let p := Ber.encode Ber.ClassUniversal Ber.TypeConstructed Ber.TagSequence "LDAP Request"
  let p := p.appendChild
    (Ber.newInteger Ber.ClassUniversal Ber.TypePrimative Ber.TagInteger messageID "MessageID")
  let p := p.appendChild op
  controls.foldl (fun q _ => q) p

/-- `(*Connection).Compare` from the Compare source file: allocate the id
(returning a closing `*Error` when the allocator signals closed), encode,
build the request packet, send and await; then, exactly as the source's
type assertion does, any error of the internal `*Error` type — whatever its
result code — is converted into the boolean `ResultCode == ResultCompareTrue`
with a nil error, while a non-`*Error` error (or nil) is returned with
`false`. -/
def Connection.Compare (l : Connection) (req : CompareRequest) : Bool × Option GoError :=
  match l.nextMessageID with
  | none => (false, some (.ldap (newError ErrorClosing "MessageID channel is closed.")))
  | some messageID =>
    match encodeCompareRequest req with
    | .error e => (false, some (.other e))
    | .ok encodedCompare =>
      let _packet := requestBuildPacket messageID encodedCompare req.Controls
      match l.sendReqRespPacket with
      | some (.ldap lerr) => (decide (lerr.ResultCode = ResultCompareTrue), none)
      | some (.other s) => (false, some (.other s))
      | none => (false, none)

/-! ## Helper lemmas -/

/-- Computation rule for `AppendChild`. -/
theorem Packet.appendChild_mk (c t g : Nat) (v : BerValue) (d : String)
    (cs : List Packet) (child : Packet) :
    (Packet.mk c t g v d cs).appendChild child = Packet.mk c t g v d (cs ++ [child]) := rfl

/-- Folding `AppendChild` over a list appends the images in list order. -/
theorem foldl_appendChild {α : Type} (f : α → Packet) (l : List α) (c t g : Nat)
    (v : BerValue) (d : String) (cs : List Packet) :
    l.foldl (fun (q : Packet) x => q.appendChild (f x)) (Packet.mk c t g v d cs) =
      Packet.mk c t g v d (cs ++ l.map f) := by
  induction l generalizing cs with
  | nil => simp
  | cons hd tl ih =>
    simp [Packet.appendChild_mk, ih]

/-- Unfolding of one change record: the loop body of `encodeModifyRequest`
emits the enumerated operation followed by the partial attribute, whose
value set lists the values in input order. -/
theorem encodeMod_eq (mod : Mod) :
    encodeMod mod =
      Packet.mk Ber.ClassUniversal Ber.TypeConstructed Ber.TagSequence .null "Modification"
        [Ber.newInteger Ber.ClassUniversal Ber.TypePrimative Ber.TagEnumerated mod.ModOperation
          ("Modify Op (" ++ ModMap mod.ModOperation ++ ")"),
         Packet.mk Ber.ClassUniversal Ber.TypeConstructed Ber.TagSequence .null "PartialAttribute"
          [Ber.newString Ber.ClassUniversal Ber.TypePrimative Ber.TagOctetString
            mod.Modification.Name "AttributeDescription",
           Packet.mk Ber.ClassUniversal Ber.TypeConstructed Ber.TagSet .null "Attribute Value Set"
            (mod.Modification.Values.map (fun val =>
              Ber.newString Ber.ClassUniversal Ber.TypePrimative Ber.TagOctetString val
                "AttributeValue"))]] := by
  unfold encodeMod
  simp only [Ber.encode, Ber.newInteger, Ber.newString, foldl_appendChild,
    Packet.appendChild_mk, List.nil_append, List.append_nil, List.singleton_append]

/-- Unfolding of the Modify envelope: the DN octet string followed by the
changes sequence holding one change record per input Mod, in order. -/
theorem encodeModifyRequest_eq (req : ModifyRequest) :
    encodeModifyRequest req =
      Packet.mk Ber.ClassApplication Ber.TypeConstructed ApplicationModifyRequest .null
        "Modify Request"
        [Ber.newString Ber.ClassUniversal Ber.TypePrimative Ber.TagOctetString req.DN "LDAP DN",
         Packet.mk Ber.ClassUniversal Ber.TypeConstructed Ber.TagSequence .null "Changes"
          (req.Mods.map encodeMod)] := by
  unfold encodeModifyRequest
  simp only [ApplicationMap, ApplicationModifyRequest, Ber.encode, Ber.newString,
    foldl_appendChild, Packet.appendChild_mk, List.nil_append, List.append_nil,
    List.singleton_append, reduceIte]

/-- Computation rule for `children`. -/
theorem Packet.children_mk (c t g : Nat) (v : BerValue) (d : String) (cs : List Packet) :
    (Packet.mk c t g v d cs).children = cs := rfl

/-! ## Claim theorems -/

/-- C4: for every ModifyRequest, the sequence of change records in the PDU
produced by `encodeModifyRequest` lists the Mods in exactly the same order
as the input Mods slice (the changes sequence is the pointwise image of the
input list, neither sorted nor reversed), and within each change record the
attribute values appear in their input order (the value set is the
pointwise image of the input values list). -/
theorem modify_encoding_preserves_order (req : ModifyRequest) :
    (encodeModifyRequest req).children =
      [Ber.newString Ber.ClassUniversal Ber.TypePrimative Ber.TagOctetString req.DN "LDAP DN",
       Packet.mk Ber.ClassUniversal Ber.TypeConstructed Ber.TagSequence .null "Changes"
         (req.Mods.map encodeMod)] ∧
    ∀ mod : Mod, (encodeMod mod).children =
      [Ber.newInteger Ber.ClassUniversal Ber.TypePrimative Ber.TagEnumerated mod.ModOperation
        ("Modify Op (" ++ ModMap mod.ModOperation ++ ")"),
       Packet.mk Ber.ClassUniversal Ber.TypeConstructed Ber.TagSequence .null "PartialAttribute"
        [Ber.newString Ber.ClassUniversal Ber.TypePrimative Ber.TagOctetString
          mod.Modification.Name "AttributeDescription",
         Packet.mk Ber.ClassUniversal Ber.TypeConstructed Ber.TagSet .null "Attribute Value Set"
          (mod.Modification.Values.map (fun val =>
            Ber.newString Ber.ClassUniversal Ber.TypePrimative Ber.TagOctetString val
              "AttributeValue"))]] := by
  constructor
  · rw [encodeModifyRequest_eq, Packet.children_mk]
  · intro mod
    rw [encodeMod_eq, Packet.children_mk]

/-- C5: the concrete ModifyRequest of the spec's scenario encodes to an
envelope whose change list has exactly one entry with operation value 0,
attribute name "cn" and value set "aaa","bbb","ccc" in that order, and its
dump renders exactly the seven LDIF lines, each newline-terminated. -/
theorem modify_encoding_scenario :
    encodeModifyRequest
      { DN := "cn=test,ou=People,dc=example,dc=com",
        Mods := [{ ModOperation := ModAdd,
                   Modification := { Name := "cn", Values := ["aaa", "bbb", "ccc"] } }] } =
      Packet.mk Ber.ClassApplication Ber.TypeConstructed ApplicationModifyRequest .null
        "Modify Request"
        [Ber.newString Ber.ClassUniversal Ber.TypePrimative Ber.TagOctetString
          "cn=test,ou=People,dc=example,dc=com" "LDAP DN",
         Packet.mk Ber.ClassUniversal Ber.TypeConstructed Ber.TagSequence .null "Changes"
          [Packet.mk Ber.ClassUniversal Ber.TypeConstructed Ber.TagSequence .null "Modification"
            [Ber.newInteger Ber.ClassUniversal Ber.TypePrimative Ber.TagEnumerated 0
              "Modify Op (add)",
             Packet.mk Ber.ClassUniversal Ber.TypeConstructed Ber.TagSequence .null
              "PartialAttribute"
              [Ber.newString Ber.ClassUniversal Ber.TypePrimative Ber.TagOctetString "cn"
                "AttributeDescription",
               Packet.mk Ber.ClassUniversal Ber.TypeConstructed Ber.TagSet .null
                "Attribute Value Set"
                [Ber.newString Ber.ClassUniversal Ber.TypePrimative Ber.TagOctetString "aaa"
                  "AttributeValue",
                 Ber.newString Ber.ClassUniversal Ber.TypePrimative Ber.TagOctetString "bbb"
                  "AttributeValue",
                 Ber.newString Ber.ClassUniversal Ber.TypePrimative Ber.TagOctetString "ccc"
                  "AttributeValue"]]]]] ∧
    ModifyRequest.DumpModRequest
      { DN := "cn=test,ou=People,dc=example,dc=com",
        Mods := [{ ModOperation := ModAdd,
                   Modification := { Name := "cn", Values := ["aaa", "bbb", "ccc"] } }] } =
      "dn: cn=test,ou=People,dc=example,dc=com\nchangetype: modify\nadd: cn\ncn: aaa\ncn: bbb\ncn: ccc\n-\n" := by
  exact ⟨rfl, rfl⟩

/-- C6: for every Mod whose Values sequence is empty, `encodeModifyRequest`
(through its loop body) still emits the attribute-value-set node for that
Mod, encoded as a set with no children; it is never omitted from the
change record. -/
theorem empty_value_set_still_encoded (mod : Mod) (h : mod.Modification.Values = []) :
    (encodeMod mod).children =
      [Ber.newInteger Ber.ClassUniversal Ber.TypePrimative Ber.TagEnumerated mod.ModOperation
        ("Modify Op (" ++ ModMap mod.ModOperation ++ ")"),
       Packet.mk Ber.ClassUniversal Ber.TypeConstructed Ber.TagSequence .null "PartialAttribute"
        [Ber.newString Ber.ClassUniversal Ber.TypePrimative Ber.TagOctetString
          mod.Modification.Name "AttributeDescription",
         Packet.mk Ber.ClassUniversal Ber.TypeConstructed Ber.TagSet .null "Attribute Value Set"
          []]] := by
  rw [encodeMod_eq, Packet.children_mk, h]
  rfl

/-- Witness for C6 at a concrete delete-all-values Mod. -/
theorem empty_value_set_still_encoded_witness :
    (Mod.mk ModDelete { Name := "cn", Values := [] }).Modification.Values = [] ∧
    (encodeMod (Mod.mk ModDelete { Name := "cn", Values := [] })).children =
      [Ber.newInteger Ber.ClassUniversal Ber.TypePrimative Ber.TagEnumerated
        (Mod.mk ModDelete { Name := "cn", Values := [] }).ModOperation
        ("Modify Op (" ++ ModMap (Mod.mk ModDelete { Name := "cn", Values := [] }).ModOperation ++ ")"),
       Packet.mk Ber.ClassUniversal Ber.TypeConstructed Ber.TagSequence .null "PartialAttribute"
        [Ber.newString Ber.ClassUniversal Ber.TypePrimative Ber.TagOctetString
          (Mod.mk ModDelete { Name := "cn", Values := [] }).Modification.Name "AttributeDescription",
         Packet.mk Ber.ClassUniversal Ber.TypeConstructed Ber.TagSet .null "Attribute Value Set"
          []]] :=
  ⟨rfl, empty_value_set_still_encoded (Mod.mk ModDelete { Name := "cn", Values := [] }) rfl⟩

/-- C7: both request encoders are deterministic — two calls on the same
input produce identical packets and byte-identical serializations; this
holds definitionally because the embedded encoders are pure functions with
no source of nondeterminism (the only Go map reads, `ModMap` and
`ApplicationMap`, are single-key lookups, not iterations). -/
theorem encoders_deterministic :
    (∀ req : ModifyRequest,
      (encodeModifyRequest req).bytes = (encodeModifyRequest req).bytes ∧
      req.Bytes = req.Bytes) ∧
    (∀ req : CompareRequest,
      (encodeCompareRequest req).map Packet.bytes = (encodeCompareRequest req).map Packet.bytes) :=
  ⟨fun _ => ⟨rfl, rfl⟩, fun _ => rfl⟩

/-- C8: for every CompareRequest, `encodeCompareRequest` produces a
Compare-tagged application envelope containing the DN octet string followed
by an attribute-value-assertion that is a sequence of exactly two octet
strings: the attribute name and the single asserted value. -/
theorem compare_encoding_shape (req : CompareRequest) :
    encodeCompareRequest req =
      .ok (Packet.mk Ber.ClassApplication Ber.TypeConstructed ApplicationCompareRequest .null
        "Compare Request"
        [Ber.newString Ber.ClassUniversal Ber.TypePrimative Ber.TagOctetString req.DN "LDAP DN",
         Packet.mk Ber.ClassUniversal Ber.TypeConstructed Ber.TagSequence .null
          "Attribute Value Assertion"
          [Ber.newString Ber.ClassUniversal Ber.TypePrimative Ber.TagOctetString req.Name
            "AttributeDesc",
           Ber.newString Ber.ClassUniversal Ber.TypePrimative Ber.TagOctetString req.Value
            "AssertionValue"]]) := by
  simp only [encodeCompareRequest, encodeItem, ApplicationMap, ApplicationCompareRequest,
    ApplicationModifyRequest, Ber.encode, Ber.newString, Packet.appendChild_mk,
    List.nil_append, List.singleton_append, reduceIte]
  rfl

/-- C9: for every Mod whose operation number is not 0, 1 or 2, `DumpMod`
still returns a rendering in which the operation keyword is the empty
string (the block line has the form ": attr"), and the change-record
encoder emits the raw out-of-range operation number unchanged instead of
rejecting it. -/
theorem out_of_range_mod_operation (mod : Mod) (h0 : mod.ModOperation ≠ ModAdd)
    (h1 : mod.ModOperation ≠ ModDelete) (h2 : mod.ModOperation ≠ ModReplace) :
    ModMap mod.ModOperation = "" ∧
    mod.DumpMod =
      mod.Modification.Values.foldl
        (fun d val => d ++ mod.Modification.Name ++ ": " ++ val ++ "\n")
        ("changetype: modify\n" ++ "" ++ ": " ++ mod.Modification.Name ++ "\n") ++ "-\n" ∧
    (encodeMod mod).children.head? =
      some (Ber.newInteger Ber.ClassUniversal Ber.TypePrimative Ber.TagEnumerated
        mod.ModOperation ("Modify Op (" ++ "" ++ ")")) := by
  have hm : ModMap mod.ModOperation = "" := by
    simp [ModMap, h0, h1, h2]
  refine ⟨hm, ?_, ?_⟩
  · unfold Mod.DumpMod
    rw [hm]
  · rw [encodeMod_eq, Packet.children_mk, hm]
    rfl

/-- Witness for C9 at the concrete out-of-range operation number 47. -/
theorem out_of_range_mod_operation_witness :
    ModMap (Mod.mk 47 { Name := "cn", Values := ["x"] }).ModOperation = "" ∧
    (Mod.mk 47 { Name := "cn", Values := ["x"] }).DumpMod =
      (Mod.mk 47 { Name := "cn", Values := ["x"] }).Modification.Values.foldl
        (fun d val => d ++ (Mod.mk 47 { Name := "cn", Values := ["x"] }).Modification.Name
          ++ ": " ++ val ++ "\n")
        ("changetype: modify\n" ++ "" ++ ": "
          ++ (Mod.mk 47 { Name := "cn", Values := ["x"] }).Modification.Name ++ "\n") ++ "-\n" ∧
    (encodeMod (Mod.mk 47 { Name := "cn", Values := ["x"] })).children.head? =
      some (Ber.newInteger Ber.ClassUniversal Ber.TypePrimative Ber.TagEnumerated
        (Mod.mk 47 { Name := "cn", Values := ["x"] }).ModOperation
        ("Modify Op (" ++ "" ++ ")")) :=
  out_of_range_mod_operation (Mod.mk 47 { Name := "cn", Values := ["x"] })
    (by decide) (by decide) (by decide)

/-- C10: `AddMod` appends exactly the given Mod at the end of the Mods
sequence and `AddMods` appends the given Mods in their given order, both
leaving the DN and the previously present Mods unchanged;
`NewModifyRequest` returns a request with the given DN and no Mods. -/
theorem add_mod_appends :
    (∀ (req : ModifyRequest) (mod : Mod),
      (req.AddMod mod).DN = req.DN ∧ (req.AddMod mod).Mods = req.Mods ++ [mod]) ∧
    (∀ (req : ModifyRequest) (mods : List Mod),
      (req.AddMods mods).DN = req.DN ∧ (req.AddMods mods).Mods = req.Mods ++ mods) ∧
    (∀ dn : String, NewModifyRequest dn = { DN := dn, Mods := [] }) :=
  ⟨fun _ _ => ⟨rfl, rfl⟩, fun _ _ => ⟨rfl, rfl⟩, fun _ => rfl⟩

/-- C3: for every ModifyRequest whose send succeeds and whose reply arrives
with result code `c` and diagnostic `d`, `Modify` returns a nil error when
`c = 0` and otherwise a structured error carrying exactly `c` and `d`. -/
theorem modify_result_mapping (l : Conn) (req : ModifyRequest) (c : Nat) (d : String)
    (hsend : l.sendResult = none) (hch : l.channelIsNil = false) (hdbg : l.Debug = false)
    (hreply : l.reply = some (c, d)) :
    l.Modify req = if c ≠ 0 then some (NewError c d) else none := by
  unfold Conn.Modify
  rw [hsend, hch, hdbg, hreply]
  simp [Conn.interpretModifyReply, getLDAPResultCode]

/-- Witness for C3 at a concrete connection delivering result code 49. -/
theorem modify_result_mapping_witness :
    Conn.Modify (Conn.mk 1 false none false (some (49, "Invalid Credentials")) none)
        (ModifyRequest.mk "cn=x" []) =
      if (49 : Nat) ≠ 0 then some (NewError 49 "Invalid Credentials") else none :=
  modify_result_mapping (Conn.mk 1 false none false (some (49, "Invalid Credentials")) none)
    (ModifyRequest.mk "cn=x" []) 49 "Invalid Credentials" rfl rfl rfl rfl

/-- C1: evaluation of `Compare` at replies carrying result codes 6, 5 and
80. Codes 6 and 5 map to `(true, nil)` and `(false, nil)` as the claim
states, but a reply with code 80 also yields `(false, nil)`: the source's
type assertion folds every internal-typed error — whatever its code — into
the boolean, so the structured error carrying code 80 is discarded rather
than propagated, contradicting the claim (and matching the divergence the
spec itself records as an open question). -/
theorem compare_folds_errors_into_boolean :
    Connection.Compare (Connection.mk (some 1) (some (6, "")))
        (CompareRequest.mk "cn=x" "cn" "v" []) = (true, none) ∧
    Connection.Compare (Connection.mk (some 1) (some (5, "")))
        (CompareRequest.mk "cn=x" "cn" "v" []) = (false, none) ∧
    Connection.Compare (Connection.mk (some 1) (some (80, "failure")))
        (CompareRequest.mk "cn=x" "cn" "v" []) = (false, none) :=
  ⟨rfl, rfl, rfl⟩

/-- C2 counterexample: on a Conn that has begun closing (the send path
hands back a nil reply channel), `Modify` fails with a network-kind error,
not a closing-kind error, so the claim that both operations fail with a
closing-kind error does not hold for `Modify`. -/
theorem modify_closing_not_closing_kind :
    Conn.Modify (Conn.mk 1 false none true none none) (ModifyRequest.mk "cn=x" []) =
      some { ResultCode := ErrorNetwork, Message := "Could not send message" } ∧
    ErrorNetwork ≠ ErrorClosing :=
  ⟨rfl, by decide⟩

/-- C2 (amended): `Compare` fails with a closing-kind error before any
request is sent when its message-ID allocator signals that the Connection
has begun closing; `Modify`'s legacy allocator returns a bare identifier
and cannot signal closing, and a closing Conn instead surfaces through the
send path as a network-kind error. -/
theorem closing_signal_handling :
    (∀ (l : Connection) (req : CompareRequest), l.nextMessageID = none →
      l.Compare req =
        (false, some (.ldap (newError ErrorClosing "MessageID channel is closed.")))) ∧
    (∀ (l : Conn) (req : ModifyRequest), l.sendResult = none → l.channelIsNil = true →
      l.Modify req = some (NewError ErrorNetwork "Could not send message")) := by
  constructor
  · intro l req h
    unfold Connection.Compare
    rw [h]
  · intro l req h1 h2
    unfold Conn.Modify
    rw [h1, h2]
    rfl

/-- Witness for the amended C2 at a closed Connection and a closing Conn. -/
theorem closing_signal_handling_witness :
    Connection.Compare (Connection.mk none none) (CompareRequest.mk "cn=x" "cn" "v" []) =
      (false, some (.ldap (newError ErrorClosing "MessageID channel is closed."))) ∧
    Conn.Modify (Conn.mk 2 false none true none none) (ModifyRequest.mk "cn=y" []) =
      some (NewError ErrorNetwork "Could not send message") :=
  ⟨closing_signal_handling.1 (Connection.mk none none)
      (CompareRequest.mk "cn=x" "cn" "v" []) rfl,
   closing_signal_handling.2 (Conn.mk 2 false none true none none)
      (ModifyRequest.mk "cn=y" []) rfl rfl⟩

end Ldap
